import Mathlib

/-!
Verification development for the doctor-caller backend.

Shallow embedding of the services under verification:
- `backend/services/risk_engine.py` (sustained-condition detector,
  per-channel analyzers, risk aggregation, summary statistics),
- `backend/services/summary_service.py` (trend detection, retrying model
  invoker, output validation),
- `backend/services/call_service.py` (notification lifecycle tracker).

Python floats are modelled as rationals; finding description strings,
which interpolate formatted numbers, are modelled as a structured
description type carrying the interpolated quantities exactly.
-/

/-- One vital-signs reading (the numeric channels of the `Vital` model that
the risk engine and trend detector read; identifiers, timestamps and
demographics are not consulted by the analyzed arithmetic). -/
structure VitalReading where
  heart_rate : ℚ
  respiratory_rate : ℚ
  body_temperature : ℚ
  spo2 : ℚ
  systolic_bp : ℚ
  diastolic_bp : ℚ
deriving DecidableEq, Repr

def HR_NORMAL_MIN : ℚ := 60
def HR_NORMAL_MAX : ℚ := 100
def HR_EXTREME_LOW : ℚ := 50
def HR_EXTREME_HIGH : ℚ := 120

def SPO2_NORMAL_MIN : ℚ := 95
def SPO2_EXTREME_MIN : ℚ := 92

def SYSTOLIC_NORMAL_MIN : ℚ := 90
def SYSTOLIC_NORMAL_MAX : ℚ := 140
def SYSTOLIC_EXTREME_LOW : ℚ := 85
def SYSTOLIC_EXTREME_HIGH : ℚ := 160

def DIASTOLIC_NORMAL_MIN : ℚ := 60
def DIASTOLIC_NORMAL_MAX : ℚ := 90
def DIASTOLIC_EXTREME_LOW : ℚ := 50
def DIASTOLIC_EXTREME_HIGH : ℚ := 100

def RR_NORMAL_MIN : ℚ := 12
def RR_NORMAL_MAX : ℚ := 20
def RR_EXTREME_LOW : ℚ := 10
def RR_EXTREME_HIGH : ℚ := 24

def TEMP_NORMAL_MIN : ℚ := 36.1
def TEMP_NORMAL_MAX : ℚ := 37.2
def TEMP_EXTREME_LOW : ℚ := 35.5
def TEMP_EXTREME_HIGH : ℚ := 38.0

def SUSTAINED_THRESHOLD_PCT : ℚ := 0.4

/-- Arithmetic mean of a list (`statistics.mean`); only applied to
non-empty lists in the source. -/
def mean (l : List ℚ) : ℚ := l.sum / l.length

/-- Minimum of a list (`min` builtin); only applied to non-empty lists. -/
def listMin : List ℚ → ℚ
  | [] => 0
  | x :: xs => xs.foldl min x

/-- Maximum of a list (`max` builtin); only applied to non-empty lists. -/
def listMax : List ℚ → ℚ
  | [] => 0
  | x :: xs => xs.foldl max x

/-- Model of `_check_sustained_condition(values, threshold, comparison)` from
`risk_engine.py`: returns `(is_sustained, percentage_exceeding)`. The
comparison parameter is the Python string argument; any string other
than "greater" selects the "less" branch, as in the source. -/
def check_sustained_condition (values : List ℚ) (threshold : ℚ)
    (comparison : String) : Bool × ℚ :=
  if values = [] then (false, 0)
  else
    let avg_value := mean values
    let exceeding_count : ℕ :=
      if comparison = "greater" then
        (values.filter (fun v => decide (threshold < v))).length
      else
        (values.filter (fun v => decide (v < threshold))).length
    let avg_exceeds : Bool :=
      if comparison = "greater" then decide (threshold < avg_value)
      else decide (avg_value < threshold)
    let pct_exceeding : ℚ := (exceeding_count : ℚ) / (values.length : ℚ)
    (avg_exceeds && decide (SUSTAINED_THRESHOLD_PCT ≤ pct_exceeding), pct_exceeding)

/-- Structured model of the finding description f-strings of
`risk_engine.py`: one constructor per description template, carrying the
interpolated statistics (average, min or max where present, and the
fraction of exceeding readings) exactly. -/
inductive Desc where
  | hrExtremeHigh (avg mx pct : ℚ)
  | hrExtremeLow (avg mn pct : ℚ)
  | hrMildHigh (avg pct : ℚ)
  | hrMildLow (avg pct : ℚ)
  | spo2ExtremeLow (avg mn pct : ℚ)
  | spo2MildLow (avg mn pct : ℚ)
  | bpSysExtremeHigh (avg mx pct : ℚ)
  | bpSysExtremeLow (avg mn pct : ℚ)
  | bpDiaExtremeHigh (avg mx pct : ℚ)
  | bpDiaExtremeLow (avg mn pct : ℚ)
  | bpSysMildHigh (avg pct : ℚ)
  | bpSysMildLow (avg pct : ℚ)
  | bpDiaMildHigh (avg pct : ℚ)
  | bpDiaMildLow (avg pct : ℚ)
  | rrExtremeHigh (avg mx pct : ℚ)
  | rrExtremeLow (avg mn pct : ℚ)
  | rrMildHigh (avg pct : ℚ)
  | rrMildLow (avg pct : ℚ)
  | tempExtremeHigh (avg mx pct : ℚ)
  | tempExtremeLow (avg mn pct : ℚ)
  | tempMildHigh (avg pct : ℚ)
  | tempMildLow (avg pct : ℚ)
deriving DecidableEq, Repr

/-- One channel finding: the dict with keys severity, vital, description
returned by the per-channel analyzers. -/
structure Finding where
  severity : String
  vital : String
  description : Desc
deriving DecidableEq, Repr

/-- Model of `_analyze_heart_rate` from `risk_engine.py`. -/
def analyze_heart_rate (vitals : List VitalReading) : Option Finding :=
  if vitals = [] then none
  else
    let hr_values := vitals.map (·.heart_rate)
    if (check_sustained_condition hr_values HR_EXTREME_HIGH "greater").1 then
      some ⟨"extreme", "heart_rate",
        .hrExtremeHigh (mean hr_values) (listMax hr_values)
          (check_sustained_condition hr_values HR_EXTREME_HIGH "greater").2⟩
    else if (check_sustained_condition hr_values HR_EXTREME_LOW "less").1 then
      some ⟨"extreme", "heart_rate",
        .hrExtremeLow (mean hr_values) (listMin hr_values)
          (check_sustained_condition hr_values HR_EXTREME_LOW "less").2⟩
    else if (check_sustained_condition hr_values HR_NORMAL_MAX "greater").1
        && decide (mean hr_values < HR_EXTREME_HIGH) then
      some ⟨"mild", "heart_rate",
        .hrMildHigh (mean hr_values)
          (check_sustained_condition hr_values HR_NORMAL_MAX "greater").2⟩
    else if (check_sustained_condition hr_values HR_NORMAL_MIN "less").1
        && decide (HR_EXTREME_LOW < mean hr_values) then
      some ⟨"mild", "heart_rate",
        .hrMildLow (mean hr_values)
          (check_sustained_condition hr_values HR_NORMAL_MIN "less").2⟩
    else none

/-- Model of `_analyze_spo2` from `risk_engine.py`. Note the mild guard is the
non-strict `avg_spo2 >= SPO2_EXTREME_MIN` in the source. -/
def analyze_spo2 (vitals : List VitalReading) : Option Finding :=
  if vitals = [] then none
  else
    let spo2_values := vitals.map (·.spo2)
    if (check_sustained_condition spo2_values SPO2_EXTREME_MIN "less").1 then
      some ⟨"extreme", "spo2",
        .spo2ExtremeLow (mean spo2_values) (listMin spo2_values)
          (check_sustained_condition spo2_values SPO2_EXTREME_MIN "less").2⟩
    else if (check_sustained_condition spo2_values SPO2_NORMAL_MIN "less").1
        && decide (SPO2_EXTREME_MIN ≤ mean spo2_values) then
      some ⟨"mild", "spo2",
        .spo2MildLow (mean spo2_values) (listMin spo2_values)
          (check_sustained_condition spo2_values SPO2_NORMAL_MIN "less").2⟩
    else none

/-- Model of `_analyze_blood_pressure` from `risk_engine.py`: the four extreme
checks (systolic high, systolic low, diastolic high, diastolic low) come
before the four mild checks (same order of sub-metrics). -/
def analyze_blood_pressure (vitals : List VitalReading) : Option Finding :=
  if vitals = [] then none
  else
    let systolic_values := vitals.map (·.systolic_bp)
    let diastolic_values := vitals.map (·.diastolic_bp)
    if (check_sustained_condition systolic_values SYSTOLIC_EXTREME_HIGH "greater").1 then
      some ⟨"extreme", "blood_pressure",
        .bpSysExtremeHigh (mean systolic_values) (listMax systolic_values)
          (check_sustained_condition systolic_values SYSTOLIC_EXTREME_HIGH "greater").2⟩
    else if (check_sustained_condition systolic_values SYSTOLIC_EXTREME_LOW "less").1 then
      some ⟨"extreme", "blood_pressure",
        .bpSysExtremeLow (mean systolic_values) (listMin systolic_values)
          (check_sustained_condition systolic_values SYSTOLIC_EXTREME_LOW "less").2⟩
    else if (check_sustained_condition diastolic_values DIASTOLIC_EXTREME_HIGH "greater").1 then
      some ⟨"extreme", "blood_pressure",
        .bpDiaExtremeHigh (mean diastolic_values) (listMax diastolic_values)
          (check_sustained_condition diastolic_values DIASTOLIC_EXTREME_HIGH "greater").2⟩
    else if (check_sustained_condition diastolic_values DIASTOLIC_EXTREME_LOW "less").1 then
      some ⟨"extreme", "blood_pressure",
        .bpDiaExtremeLow (mean diastolic_values) (listMin diastolic_values)
          (check_sustained_condition diastolic_values DIASTOLIC_EXTREME_LOW "less").2⟩
    else if (check_sustained_condition systolic_values SYSTOLIC_NORMAL_MAX "greater").1
        && decide (mean systolic_values < SYSTOLIC_EXTREME_HIGH) then
      some ⟨"mild", "blood_pressure",
        .bpSysMildHigh (mean systolic_values)
          (check_sustained_condition systolic_values SYSTOLIC_NORMAL_MAX "greater").2⟩
    else if (check_sustained_condition systolic_values SYSTOLIC_NORMAL_MIN "less").1
        && decide (SYSTOLIC_EXTREME_LOW < mean systolic_values) then
      some ⟨"mild", "blood_pressure",
        .bpSysMildLow (mean systolic_values)
          (check_sustained_condition systolic_values SYSTOLIC_NORMAL_MIN "less").2⟩
    else if (check_sustained_condition diastolic_values DIASTOLIC_NORMAL_MAX "greater").1
        && decide (mean diastolic_values < DIASTOLIC_EXTREME_HIGH) then
      some ⟨"mild", "blood_pressure",
        .bpDiaMildHigh (mean diastolic_values)
          (check_sustained_condition diastolic_values DIASTOLIC_NORMAL_MAX "greater").2⟩
    else if (check_sustained_condition diastolic_values DIASTOLIC_NORMAL_MIN "less").1
        && decide (DIASTOLIC_EXTREME_LOW < mean diastolic_values) then
      some ⟨"mild", "blood_pressure",
        .bpDiaMildLow (mean diastolic_values)
          (check_sustained_condition diastolic_values DIASTOLIC_NORMAL_MIN "less").2⟩
    else none

/-- Model of `_analyze_respiratory_rate` from `risk_engine.py`. -/
def analyze_respiratory_rate (vitals : List VitalReading) : Option Finding :=
  if vitals = [] then none
  else
    let rr_values := vitals.map (·.respiratory_rate)
    if (check_sustained_condition rr_values RR_EXTREME_HIGH "greater").1 then
      some ⟨"extreme", "respiratory_rate",
        .rrExtremeHigh (mean rr_values) (listMax rr_values)
          (check_sustained_condition rr_values RR_EXTREME_HIGH "greater").2⟩
    else if (check_sustained_condition rr_values RR_EXTREME_LOW "less").1 then
      some ⟨"extreme", "respiratory_rate",
        .rrExtremeLow (mean rr_values) (listMin rr_values)
          (check_sustained_condition rr_values RR_EXTREME_LOW "less").2⟩
    else if (check_sustained_condition rr_values RR_NORMAL_MAX "greater").1
        && decide (mean rr_values < RR_EXTREME_HIGH) then
      some ⟨"mild", "respiratory_rate",
        .rrMildHigh (mean rr_values)
          (check_sustained_condition rr_values RR_NORMAL_MAX "greater").2⟩
    else if (check_sustained_condition rr_values RR_NORMAL_MIN "less").1
        && decide (RR_EXTREME_LOW < mean rr_values) then
      some ⟨"mild", "respiratory_rate",
        .rrMildLow (mean rr_values)
          (check_sustained_condition rr_values RR_NORMAL_MIN "less").2⟩
    else none

/-- Model of `_analyze_temperature` from `risk_engine.py`. -/
def analyze_temperature (vitals : List VitalReading) : Option Finding :=
  if vitals = [] then none
  else
    let temp_values := vitals.map (·.body_temperature)
    if (check_sustained_condition temp_values TEMP_EXTREME_HIGH "greater").1 then
      some ⟨"extreme", "temperature",
        .tempExtremeHigh (mean temp_values) (listMax temp_values)
          (check_sustained_condition temp_values TEMP_EXTREME_HIGH "greater").2⟩
    else if (check_sustained_condition temp_values TEMP_EXTREME_LOW "less").1 then
      some ⟨"extreme", "temperature",
        .tempExtremeLow (mean temp_values) (listMin temp_values)
          (check_sustained_condition temp_values TEMP_EXTREME_LOW "less").2⟩
    else if (check_sustained_condition temp_values TEMP_NORMAL_MAX "greater").1
        && decide (mean temp_values < TEMP_EXTREME_HIGH) then
      some ⟨"mild", "temperature",
        .tempMildHigh (mean temp_values)
          (check_sustained_condition temp_values TEMP_NORMAL_MAX "greater").2⟩
    else if (check_sustained_condition temp_values TEMP_NORMAL_MIN "less").1
        && decide (TEMP_EXTREME_LOW < mean temp_values) then
      some ⟨"mild", "temperature",
        .tempMildLow (mean temp_values)
          (check_sustained_condition temp_values TEMP_NORMAL_MIN "less").2⟩
    else none

/-- Model of `_aggregate_risk_level` from `risk_engine.py`. -/
def aggregate_risk_level (signals : List Finding) : String :=
  if signals = [] then "low"
  else if signals.any (fun s => s.severity == "extreme") then "high"
  else if signals.any (fun s => s.severity == "mild") then "moderate"
  else "low"

/-- Model of `_compute_vitals_summary` from `risk_engine.py`: the avg/min/max
statistics map, as an ordered key-value list. -/
def compute_vitals_summary (vitals : List VitalReading) : List (String × ℚ) :=
  if vitals = [] then []
  else
    [("heart_rate_avg", mean (vitals.map (·.heart_rate))),
     ("heart_rate_min", listMin (vitals.map (·.heart_rate))),
     ("heart_rate_max", listMax (vitals.map (·.heart_rate))),
     ("spo2_avg", mean (vitals.map (·.spo2))),
     ("spo2_min", listMin (vitals.map (·.spo2))),
     ("spo2_max", listMax (vitals.map (·.spo2))),
     ("systolic_bp_avg", mean (vitals.map (·.systolic_bp))),
     ("systolic_bp_min", listMin (vitals.map (·.systolic_bp))),
     ("systolic_bp_max", listMax (vitals.map (·.systolic_bp))),
     ("diastolic_bp_avg", mean (vitals.map (·.diastolic_bp))),
     ("diastolic_bp_min", listMin (vitals.map (·.diastolic_bp))),
     ("diastolic_bp_max", listMax (vitals.map (·.diastolic_bp))),
     ("respiratory_rate_avg", mean (vitals.map (·.respiratory_rate))),
     ("respiratory_rate_min", listMin (vitals.map (·.respiratory_rate))),
     ("respiratory_rate_max", listMax (vitals.map (·.respiratory_rate))),
     ("temperature_avg", mean (vitals.map (·.body_temperature))),
     ("temperature_min", listMin (vitals.map (·.body_temperature))),
     ("temperature_max", listMax (vitals.map (·.body_temperature)))]

/-- Result of `assess_risk`: risk level, signal descriptions, statistics. -/
structure RiskResult where
  risk_level : String
  signals : List Desc
  vitals_summary : List (String × ℚ)
deriving DecidableEq, Repr

/-- Model of `assess_risk` from `risk_engine.py`: runs the five channel analyzers
in order, aggregates the risk level, and extracts signal descriptions. -/
def assess_risk (vitals : List VitalReading) : RiskResult :=
  if vitals = [] then ⟨"low", [], []⟩
  else
    let signal_results :=
      [analyze_heart_rate vitals, analyze_spo2 vitals, analyze_blood_pressure vitals,
       analyze_respiratory_rate vitals, analyze_temperature vitals].filterMap id
    ⟨aggregate_risk_level signal_results,
     signal_results.map (·.description),
     compute_vitals_summary vitals⟩

/-- Window exhibiting a systolic mild-high condition (150 mmHg) together
with a diastolic extreme-high condition (105 mmHg). -/
def wC2 : List VitalReading := [⟨80, 16, 36.8, 98, 150, 105⟩]

/-- The eight severity steps of the blood-pressure channel in the order
the source evaluates them: the four extreme steps (systolic high,
systolic low, diastolic high, diastolic low) before the four mild steps
(systolic high, systolic low, diastolic high, diastolic low); each step
paired with the finding it would emit. -/
def bp_steps (w : List VitalReading) : List (Bool × Finding) :=
  let sys := w.map (·.systolic_bp)
  let dia := w.map (·.diastolic_bp)
  [((check_sustained_condition sys SYSTOLIC_EXTREME_HIGH "greater").1,
    ⟨"extreme", "blood_pressure",
      .bpSysExtremeHigh (mean sys) (listMax sys)
        (check_sustained_condition sys SYSTOLIC_EXTREME_HIGH "greater").2⟩),
   ((check_sustained_condition sys SYSTOLIC_EXTREME_LOW "less").1,
    ⟨"extreme", "blood_pressure",
      .bpSysExtremeLow (mean sys) (listMin sys)
        (check_sustained_condition sys SYSTOLIC_EXTREME_LOW "less").2⟩),
   ((check_sustained_condition dia DIASTOLIC_EXTREME_HIGH "greater").1,
    ⟨"extreme", "blood_pressure",
      .bpDiaExtremeHigh (mean dia) (listMax dia)
        (check_sustained_condition dia DIASTOLIC_EXTREME_HIGH "greater").2⟩),
   ((check_sustained_condition dia DIASTOLIC_EXTREME_LOW "less").1,
    ⟨"extreme", "blood_pressure",
      .bpDiaExtremeLow (mean dia) (listMin dia)
        (check_sustained_condition dia DIASTOLIC_EXTREME_LOW "less").2⟩),
   ((check_sustained_condition sys SYSTOLIC_NORMAL_MAX "greater").1
      && decide (mean sys < SYSTOLIC_EXTREME_HIGH),
    ⟨"mild", "blood_pressure",
      .bpSysMildHigh (mean sys)
        (check_sustained_condition sys SYSTOLIC_NORMAL_MAX "greater").2⟩),
   ((check_sustained_condition sys SYSTOLIC_NORMAL_MIN "less").1
      && decide (SYSTOLIC_EXTREME_LOW < mean sys),
    ⟨"mild", "blood_pressure",
      .bpSysMildLow (mean sys)
        (check_sustained_condition sys SYSTOLIC_NORMAL_MIN "less").2⟩),
   ((check_sustained_condition dia DIASTOLIC_NORMAL_MAX "greater").1
      && decide (mean dia < DIASTOLIC_EXTREME_HIGH),
    ⟨"mild", "blood_pressure",
      .bpDiaMildHigh (mean dia)
        (check_sustained_condition dia DIASTOLIC_NORMAL_MAX "greater").2⟩),
   ((check_sustained_condition dia DIASTOLIC_NORMAL_MIN "less").1
      && decide (DIASTOLIC_EXTREME_LOW < mean dia),
    ⟨"mild", "blood_pressure",
      .bpDiaMildLow (mean dia)
        (check_sustained_condition dia DIASTOLIC_NORMAL_MIN "less").2⟩)]

/-- First-triggering-step semantics over the ordered step list. -/
def bp_first_match (w : List VitalReading) : Option Finding :=
  if w = [] then none else ((bp_steps w).find? (·.1)).map (·.2)

/-- Window whose SpO2 is exactly 92 for the single reading: mean equals
the extreme-low bound. -/
def wC3 : List VitalReading := [⟨80, 16, 36.8, 92, 120, 80⟩]

/-- Trend computation of `format_vitals_for_prompt` in
`summary_service.py` (lines 81-107): leading and trailing segments of
max(1, count // 4) readings are compared on mean heart rate, SpO2 and
systolic blood pressure. -/
def trend_of (vitals : List VitalReading) : String :=
  let num_readings := vitals.length
  let split_point := max 1 (num_readings / 4)
  let first_segment := vitals.take split_point
  let last_segment := vitals.drop (num_readings - split_point)
  let hr_change := mean (last_segment.map (·.heart_rate)) - mean (first_segment.map (·.heart_rate))
  let spo2_change := mean (last_segment.map (·.spo2)) - mean (first_segment.map (·.spo2))
  let sys_change := mean (last_segment.map (·.systolic_bp)) - mean (first_segment.map (·.systolic_bp))
  if hr_change > 10 ∨ spo2_change < -2 ∨ sys_change > 10 then "deteriorating"
  else if hr_change < -10 ∨ spo2_change > 2 ∨ sys_change < -10 then "improving"
  else "stable"

/-- Window used in the C6 witness: three steady readings then a heart
rate jump of 20 bpm. -/
def wC6 : List VitalReading :=
  [⟨70, 16, 36.8, 98, 120, 80⟩, ⟨70, 16, 36.8, 98, 120, 80⟩,
   ⟨70, 16, 36.8, 98, 120, 80⟩, ⟨90, 16, 36.8, 98, 120, 80⟩]

/-- Python str.lower() (ASCII case folding). -/
def lowerStr (s : String) : String := String.mk (s.data.map Char.toLower)

/-- Python str.upper() (ASCII case folding). -/
def upperStr (s : String) : String := String.mk (s.data.map Char.toUpper)

/-- Does the second character list start with the first? -/
def beginsWith : List Char → List Char → Bool
  | [], _ => true
  | _ :: _, [] => false
  | a :: as, b :: bs => a == b && beginsWith as bs

/-- Contiguous sublist search: does the needle occur in the hay? -/
def hasSub (needle : List Char) : List Char → Bool
  | [] => needle.isEmpty
  | c :: rest => beginsWith needle (c :: rest) || hasSub needle rest

/-- Python substring membership needle in hay. -/
def containsSub (hay needle : String) : Bool := hasSub needle.data hay.data

def RETRY_MAX_ATTEMPTS : Nat := 3

def RETRY_BACKOFF_FACTOR : ℚ := 2.0

/-- Successful response of the model transport: the fields extracted by
call_claude_api from the SDK response. -/
structure ApiResponse where
  content : String
  model : String
  input_tokens : Nat
  output_tokens : Nat
deriving DecidableEq, Repr

/-- Terminal outcome of call_claude_api: a normal return, the
non-retryable authentication APIError, the post-exhaustion APIError
wrapping the last underlying error, or the ValueError for a missing
ANTHROPIC_API_KEY. -/
inductive ApiOutcome where
  | success (r : ApiResponse)
  | authFailure (err : String)
  | apiFailure (lastError : String)
  | missingKey
deriving DecidableEq, Repr

/-- The auth-error test of call_claude_api:
"401" in str(e) or "authentication" in str(e).lower(). -/
def is_auth_error (e : String) : Bool :=
  containsSub e "401" || containsSub (lowerStr e) "authentication"

/-- The retry loop of call_claude_api. The transport is modelled as a
function from the attempt index to the outcome of that attempt; the returned
triple carries the outcome, the number of transport attempts made, and
the sequence of backoff waits (in seconds) slept between attempts. The
fuel argument is RETRY_MAX_ATTEMPTS minus the current index. -/
def attempt_loop (attempts : Nat → Except String ApiResponse) :
    Nat → Nat → List ℚ → ApiOutcome × Nat × List ℚ
  | idx, 0, waits => (.apiFailure "", idx, waits)
  | idx, fuel + 1, waits =>
    match attempts idx with
    | .ok r => (.success r, idx + 1, waits)
    | .error e =>
      if is_auth_error e then (.authFailure e, idx + 1, waits)
      else if fuel = 0 then (.apiFailure e, idx + 1, waits)
      else attempt_loop attempts (idx + 1) fuel (waits ++ [RETRY_BACKOFF_FACTOR ^ idx])

/-- call_claude_api from summary_service.py: a falsy ANTHROPIC_API_KEY
(unset or empty) raises before any transport attempt; otherwise the
retry loop runs with up to RETRY_MAX_ATTEMPTS attempts. -/
def call_claude_api (api_key : Option String)
    (attempts : Nat → Except String ApiResponse) : ApiOutcome × Nat × List ℚ :=
  if api_key = none ∨ api_key = some "" then (.missingKey, 0, [])
  else attempt_loop attempts 0 RETRY_MAX_ATTEMPTS []

def MIN_SUMMARY_WORDS : Nat := 50

def MAX_SUMMARY_WORDS_BUFFER : Nat := 250

/-- Helper for py_split: accumulates the current word (reversed). -/
def splitWsAux : List Char → List Char → List String
  | [], acc => if acc.isEmpty then [] else [String.mk acc.reverse]
  | c :: cs, acc =>
    if c.isWhitespace then
      if acc.isEmpty then splitWsAux cs [] else String.mk acc.reverse :: splitWsAux cs []
    else splitWsAux cs (c :: acc)

/-- Python str.split() with no argument: split on whitespace runs,
discarding empty pieces. -/
def py_split (s : String) : List String := splitWsAux s.data []

/-- The single-quote character used in the validation reason strings. -/
def quoteChar : String := String.singleton (Char.ofNat 39)

def strict_diagnosis_patterns : List String :=
  ["diagnosed with", "diagnosis of", "patient has", "patient is suffering", "condition is"]

def strict_treatment_patterns : List String :=
  ["recommend treatment", "prescribe", "administer", "should be given", "requires medication"]

def time_keywords : List String := ["hour", "time", "period", "window", "monitoring"]

def risk_keywords : List String := ["risk", "low", "moderate", "high", "normal", "concerning"]

/-- validate_summary from summary_service.py. -/
def validate_summary (summary_text patient_id : String) : Bool × Option String :=
  if summary_text = "" then (false, some "summary is empty")
  else
    let word_count := (py_split summary_text).length
    if word_count < MIN_SUMMARY_WORDS then
      (false, some ("summary too short (" ++ toString word_count ++ " words, minimum " ++
        toString MIN_SUMMARY_WORDS ++ ")"))
    else if word_count > MAX_SUMMARY_WORDS_BUFFER then
      (false, some ("summary too long (" ++ toString word_count ++ " words, maximum " ++
        toString MAX_SUMMARY_WORDS_BUFFER ++ ")"))
    else if ! containsSub (upperStr summary_text) (upperStr patient_id) then
      (false, some ("summary does not reference patient " ++ patient_id))
    else
      let summary_lower := lowerStr summary_text
      match strict_diagnosis_patterns.find? (fun p => containsSub summary_lower p) with
      | some p => (false, some ("contains diagnostic language: " ++ quoteChar ++ p ++ quoteChar))
      | none =>
        match strict_treatment_patterns.find? (fun p => containsSub summary_lower p) with
        | some p => (false, some ("contains treatment recommendation: " ++ quoteChar ++ p ++ quoteChar))
        | none =>
          if ! time_keywords.any (fun k => containsSub summary_lower k) then
            (false, some "summary does not mention time window")
          else if ! risk_keywords.any (fun k => containsSub summary_lower k) then
            (false, some "summary does not mention risk assessment")
          else (true, none)

/-- A 50-word summary containing the lone word diagnosis, the patient
identifier, a time keyword and a risk keyword. -/
def wC5_text : String :=
  String.intercalate " "
    (["PATIENT_001", "monitoring", "hour", "risk", "diagnosis"] ++ List.replicate 45 "data")

/-- Stored call record (the per-call dict of TwilioCallService.calls);
timestamps are modelled as naturals. -/
structure CallRecord where
  call_id : String
  call_sid : String
  patient_id : String
  summary_text : String
  status : String
  to_number : String
  from_number : String
  created_at : Nat
  completed_at : Option Nat
  duration_seconds : Option Int
deriving DecidableEq, Repr

/-- The in-memory store self.calls: a map from call identifiers to
records. -/
def CallStore : Type := String → Option CallRecord

/-- Result of the provider place-call request (client.calls.create). -/
structure PlacedCall where
  sid : String
  status : String
deriving DecidableEq, Repr

/-- Result of the provider status fetch (client.calls(sid).fetch()). -/
structure TwilioCallInfo where
  status : String
  duration : Option Int
deriving DecidableEq, Repr

/-- _map_twilio_status from call_service.py. -/
def map_twilio_status (twilio_status : String) : String :=
  if twilio_status = "queued" then "queued"
  else if twilio_status = "ringing" then "initiated"
  else if twilio_status = "in-progress" then "in-progress"
  else if twilio_status = "completed" then "completed"
  else if twilio_status = "busy" then "failed"
  else if twilio_status = "no-answer" then "failed"
  else if twilio_status = "failed" then "failed"
  else if twilio_status = "canceled" then "failed"
  else "unknown"

/-- The terminal provider statuses checked by get_call_status. -/
def terminal_statuses : List String := ["completed", "busy", "no-answer", "failed", "canceled"]

/-- start_call from call_service.py: on provider success, stores the new
record (completed_at and duration null) and returns the generated call
identifier; a provider error is re-raised. The generated uuid, the
configured numbers and the creation time are parameters of the model. -/
def start_call (calls : CallStore) (summary_text patient_id : String)
    (call_id provider_number caller_id : String)
    (place : Except String PlacedCall) (now : Nat) :
    Except String (String × CallStore) :=
  match place with
  | .error e => .error e
  | .ok call =>
    let record : CallRecord :=
      { call_id := call_id, call_sid := call.sid, patient_id := patient_id,
        summary_text := summary_text, status := map_twilio_status call.status,
        to_number := provider_number, from_number := caller_id,
        created_at := now, completed_at := none, duration_seconds := none }
    .ok (call_id, fun k => if k = call_id then some record else calls k)

/-- The in-place update a successful status fetch applies to the stored
record inside get_call_status: remap the status, record a reported
duration, and set completed_at at the first terminal status observed. -/
def refresh_record (r : CallRecord) (tc : TwilioCallInfo) (now : Nat) : CallRecord :=
  let r1 := { r with status := map_twilio_status tc.status }
  let r2 := match tc.duration with
            | some d => { r1 with duration_seconds := some d }
            | none => r1
  if terminal_statuses.contains tc.status && r2.completed_at.isNone then
    { r2 with completed_at := some now }
  else r2

/-- The summary-free view get_call_status returns. -/
structure CallView where
  call_id : String
  call_sid : String
  status : String
  patient_id : String
  to_number : String
  from_number : String
  created_at : Nat
  completed_at : Option Nat
  duration_seconds : Option Int
deriving DecidableEq, Repr

/-- Projection of a stored record to the returned view (summary_text
excluded). -/
def view_of (r : CallRecord) : CallView :=
  ⟨r.call_id, r.call_sid, r.status, r.patient_id, r.to_number, r.from_number,
    r.created_at, r.completed_at, r.duration_seconds⟩

/-- get_call_status from call_service.py: unknown ids give none; a
failed provider fetch returns the stored data unchanged; a successful
fetch updates the stored record via refresh_record and returns its
view. -/
def get_call_status (calls : CallStore) (call_id : String)
    (fetch : Except String TwilioCallInfo) (now : Nat) :
    Option CallView × CallStore :=
  match calls call_id with
  | none => (none, calls)
  | some r =>
    match fetch with
    | .error _ => (some (view_of r), calls)
    | .ok tc =>
      let r3 := refresh_record r tc now
      (some (view_of r3), fun k => if k = call_id then some r3 else calls k)

/-- get_summary_for_call from call_service.py. -/
def get_summary_for_call (calls : CallStore) (call_id : String) : Option String :=
  match calls call_id with
  | none => none
  | some r => some r.summary_text

/-- Store used by the C8 witness. -/
def wC8_store : CallStore :=
  fun k =>
    if k = "call_a" then
      some ⟨"call_a", "CA123", "PATIENT_001", "summary", "queued", "to", "from", 0, none, none⟩
    else none

/-! ## Theorems -/

theorem sum_le_length_mul (l : List ℚ) (b : ℚ) (h : ∀ x ∈ l, x ≤ b) :
    l.sum ≤ (l.length : ℚ) * b := by
  induction l with
  | nil => simp
  | cons a t ih =>
    have ha := h a (List.mem_cons_self a t)
    have ht := ih (fun x hx => h x (List.mem_cons_of_mem a hx))
    simp only [List.sum_cons, List.length_cons]
    push_cast
    linarith

theorem length_mul_le_sum (l : List ℚ) (a : ℚ) (h : ∀ x ∈ l, a ≤ x) :
    (l.length : ℚ) * a ≤ l.sum := by
  induction l with
  | nil => simp
  | cons c t ih =>
    have hc := h c (List.mem_cons_self c t)
    have ht := ih (fun x hx => h x (List.mem_cons_of_mem c hx))
    simp only [List.sum_cons, List.length_cons]
    push_cast
    linarith

theorem mean_le_of_le (l : List ℚ) (b : ℚ) (hne : l ≠ []) (h : ∀ x ∈ l, x ≤ b) :
    mean l ≤ b := by
  have hl : 0 < (l.length : ℚ) := by
    have := List.length_pos.mpr hne
    exact_mod_cast this
  rw [mean, div_le_iff₀ hl]
  calc l.sum ≤ (l.length : ℚ) * b := sum_le_length_mul l b h
    _ = b * l.length := by ring

theorem le_mean_of_le (l : List ℚ) (a : ℚ) (hne : l ≠ []) (h : ∀ x ∈ l, a ≤ x) :
    a ≤ mean l := by
  have hl : 0 < (l.length : ℚ) := by
    have := List.length_pos.mpr hne
    exact_mod_cast this
  rw [mean, le_div_iff₀ hl]
  calc a * l.length = (l.length : ℚ) * a := by ring
    _ ≤ l.sum := length_mul_le_sum l a h

theorem check_greater_false (values : List ℚ) (t : ℚ) (h : mean values ≤ t) :
    (check_sustained_condition values t "greater").1 = false := by
  unfold check_sustained_condition
  split
  · rfl
  · simp [not_lt.mpr h]

theorem check_less_false (values : List ℚ) (t : ℚ) (h : t ≤ mean values) :
    (check_sustained_condition values t "less").1 = false := by
  unfold check_sustained_condition
  split
  · rfl
  · simp [not_lt.mpr h]

theorem mean_lt_of_check_greater (values : List ℚ) (t : ℚ)
    (h : (check_sustained_condition values t "greater").1 = true) : t < mean values := by
  unfold check_sustained_condition at h
  split at h
  · simp at h
  · simp at h
    exact h.1

theorem mean_lt_of_check_less (values : List ℚ) (t : ℚ)
    (h : (check_sustained_condition values t "less").1 = true) : mean values < t := by
  unfold check_sustained_condition at h
  split at h
  · simp at h
  · simp at h
    exact h.1

theorem analyze_heart_rate_eq_none (vitals : List VitalReading)
    (h : ∀ v ∈ vitals, 60 ≤ v.heart_rate ∧ v.heart_rate ≤ 100) :
    analyze_heart_rate vitals = none := by
  by_cases hne : vitals = []
  · simp [analyze_heart_rate, hne]
  · have hmne : vitals.map (·.heart_rate) ≠ [] := by
      simpa [List.map_eq_nil_iff] using hne
    have hlo : ∀ x ∈ vitals.map (·.heart_rate), (60 : ℚ) ≤ x := by
      intro x hx
      rcases List.mem_map.mp hx with ⟨v, hv, rfl⟩
      exact (h v hv).1
    have hhi : ∀ x ∈ vitals.map (·.heart_rate), x ≤ (100 : ℚ) := by
      intro x hx
      rcases List.mem_map.mp hx with ⟨v, hv, rfl⟩
      exact (h v hv).2
    have hm1 := mean_le_of_le _ _ hmne hhi
    have hm2 := le_mean_of_le _ _ hmne hlo
    have c1 : (check_sustained_condition (vitals.map (·.heart_rate)) HR_EXTREME_HIGH "greater").1 = false :=
      check_greater_false _ _ (by norm_num [HR_EXTREME_HIGH]; linarith)
    have c2 : (check_sustained_condition (vitals.map (·.heart_rate)) HR_EXTREME_LOW "less").1 = false :=
      check_less_false _ _ (by norm_num [HR_EXTREME_LOW]; linarith)
    have c3 : (check_sustained_condition (vitals.map (·.heart_rate)) HR_NORMAL_MAX "greater").1 = false :=
      check_greater_false _ _ (by norm_num [HR_NORMAL_MAX]; linarith)
    have c4 : (check_sustained_condition (vitals.map (·.heart_rate)) HR_NORMAL_MIN "less").1 = false :=
      check_less_false _ _ (by norm_num [HR_NORMAL_MIN]; linarith)
    simp [analyze_heart_rate, hne, c1, c2, c3, c4]

theorem analyze_spo2_eq_none (vitals : List VitalReading)
    (h : ∀ v ∈ vitals, 95 ≤ v.spo2 ∧ v.spo2 ≤ 100) :
    analyze_spo2 vitals = none := by
  by_cases hne : vitals = []
  · simp [analyze_spo2, hne]
  · have hmne : vitals.map (·.spo2) ≠ [] := by
      simpa [List.map_eq_nil_iff] using hne
    have hlo : ∀ x ∈ vitals.map (·.spo2), (95 : ℚ) ≤ x := by
      intro x hx
      rcases List.mem_map.mp hx with ⟨v, hv, rfl⟩
      exact (h v hv).1
    have hm2 := le_mean_of_le _ _ hmne hlo
    have c1 : (check_sustained_condition (vitals.map (·.spo2)) SPO2_EXTREME_MIN "less").1 = false :=
      check_less_false _ _ (by norm_num [SPO2_EXTREME_MIN]; linarith)
    have c2 : (check_sustained_condition (vitals.map (·.spo2)) SPO2_NORMAL_MIN "less").1 = false :=
      check_less_false _ _ (by norm_num [SPO2_NORMAL_MIN]; linarith)
    simp [analyze_spo2, hne, c1, c2]

theorem analyze_blood_pressure_eq_none (vitals : List VitalReading)
    (hs : ∀ v ∈ vitals, 90 ≤ v.systolic_bp ∧ v.systolic_bp ≤ 140)
    (hd : ∀ v ∈ vitals, 60 ≤ v.diastolic_bp ∧ v.diastolic_bp ≤ 90) :
    analyze_blood_pressure vitals = none := by
  by_cases hne : vitals = []
  · simp [analyze_blood_pressure, hne]
  · have hsne : vitals.map (·.systolic_bp) ≠ [] := by
      simpa [List.map_eq_nil_iff] using hne
    have hdne : vitals.map (·.diastolic_bp) ≠ [] := by
      simpa [List.map_eq_nil_iff] using hne
    have hslo : ∀ x ∈ vitals.map (·.systolic_bp), (90 : ℚ) ≤ x := by
      intro x hx
      rcases List.mem_map.mp hx with ⟨v, hv, rfl⟩
      exact (hs v hv).1
    have hshi : ∀ x ∈ vitals.map (·.systolic_bp), x ≤ (140 : ℚ) := by
      intro x hx
      rcases List.mem_map.mp hx with ⟨v, hv, rfl⟩
      exact (hs v hv).2
    have hdlo : ∀ x ∈ vitals.map (·.diastolic_bp), (60 : ℚ) ≤ x := by
      intro x hx
      rcases List.mem_map.mp hx with ⟨v, hv, rfl⟩
      exact (hd v hv).1
    have hdhi : ∀ x ∈ vitals.map (·.diastolic_bp), x ≤ (90 : ℚ) := by
      intro x hx
      rcases List.mem_map.mp hx with ⟨v, hv, rfl⟩
      exact (hd v hv).2
    have hsm1 := mean_le_of_le _ _ hsne hshi
    have hsm2 := le_mean_of_le _ _ hsne hslo
    have hdm1 := mean_le_of_le _ _ hdne hdhi
    have hdm2 := le_mean_of_le _ _ hdne hdlo
    have c1 : (check_sustained_condition (vitals.map (·.systolic_bp)) SYSTOLIC_EXTREME_HIGH "greater").1 = false :=
      check_greater_false _ _ (by norm_num [SYSTOLIC_EXTREME_HIGH]; linarith)
    have c2 : (check_sustained_condition (vitals.map (·.systolic_bp)) SYSTOLIC_EXTREME_LOW "less").1 = false :=
      check_less_false _ _ (by norm_num [SYSTOLIC_EXTREME_LOW]; linarith)
    have c3 : (check_sustained_condition (vitals.map (·.diastolic_bp)) DIASTOLIC_EXTREME_HIGH "greater").1 = false :=
      check_greater_false _ _ (by norm_num [DIASTOLIC_EXTREME_HIGH]; linarith)
    have c4 : (check_sustained_condition (vitals.map (·.diastolic_bp)) DIASTOLIC_EXTREME_LOW "less").1 = false :=
      check_less_false _ _ (by norm_num [DIASTOLIC_EXTREME_LOW]; linarith)
    have c5 : (check_sustained_condition (vitals.map (·.systolic_bp)) SYSTOLIC_NORMAL_MAX "greater").1 = false :=
      check_greater_false _ _ (by norm_num [SYSTOLIC_NORMAL_MAX]; linarith)
    have c6 : (check_sustained_condition (vitals.map (·.systolic_bp)) SYSTOLIC_NORMAL_MIN "less").1 = false :=
      check_less_false _ _ (by norm_num [SYSTOLIC_NORMAL_MIN]; linarith)
    have c7 : (check_sustained_condition (vitals.map (·.diastolic_bp)) DIASTOLIC_NORMAL_MAX "greater").1 = false :=
      check_greater_false _ _ (by norm_num [DIASTOLIC_NORMAL_MAX]; linarith)
    have c8 : (check_sustained_condition (vitals.map (·.diastolic_bp)) DIASTOLIC_NORMAL_MIN "less").1 = false :=
      check_less_false _ _ (by norm_num [DIASTOLIC_NORMAL_MIN]; linarith)
    simp [analyze_blood_pressure, hne, c1, c2, c3, c4, c5, c6, c7, c8]

theorem analyze_respiratory_rate_eq_none (vitals : List VitalReading)
    (h : ∀ v ∈ vitals, 12 ≤ v.respiratory_rate ∧ v.respiratory_rate ≤ 20) :
    analyze_respiratory_rate vitals = none := by
  by_cases hne : vitals = []
  · simp [analyze_respiratory_rate, hne]
  · have hmne : vitals.map (·.respiratory_rate) ≠ [] := by
      simpa [List.map_eq_nil_iff] using hne
    have hlo : ∀ x ∈ vitals.map (·.respiratory_rate), (12 : ℚ) ≤ x := by
      intro x hx
      rcases List.mem_map.mp hx with ⟨v, hv, rfl⟩
      exact (h v hv).1
    have hhi : ∀ x ∈ vitals.map (·.respiratory_rate), x ≤ (20 : ℚ) := by
      intro x hx
      rcases List.mem_map.mp hx with ⟨v, hv, rfl⟩
      exact (h v hv).2
    have hm1 := mean_le_of_le _ _ hmne hhi
    have hm2 := le_mean_of_le _ _ hmne hlo
    have c1 : (check_sustained_condition (vitals.map (·.respiratory_rate)) RR_EXTREME_HIGH "greater").1 = false :=
      check_greater_false _ _ (by norm_num [RR_EXTREME_HIGH]; linarith)
    have c2 : (check_sustained_condition (vitals.map (·.respiratory_rate)) RR_EXTREME_LOW "less").1 = false :=
      check_less_false _ _ (by norm_num [RR_EXTREME_LOW]; linarith)
    have c3 : (check_sustained_condition (vitals.map (·.respiratory_rate)) RR_NORMAL_MAX "greater").1 = false :=
      check_greater_false _ _ (by norm_num [RR_NORMAL_MAX]; linarith)
    have c4 : (check_sustained_condition (vitals.map (·.respiratory_rate)) RR_NORMAL_MIN "less").1 = false :=
      check_less_false _ _ (by norm_num [RR_NORMAL_MIN]; linarith)
    simp [analyze_respiratory_rate, hne, c1, c2, c3, c4]

theorem analyze_temperature_eq_none (vitals : List VitalReading)
    (h : ∀ v ∈ vitals, 36.1 ≤ v.body_temperature ∧ v.body_temperature ≤ 37.2) :
    analyze_temperature vitals = none := by
  by_cases hne : vitals = []
  · simp [analyze_temperature, hne]
  · have hmne : vitals.map (·.body_temperature) ≠ [] := by
      simpa [List.map_eq_nil_iff] using hne
    have hlo : ∀ x ∈ vitals.map (·.body_temperature), (36.1 : ℚ) ≤ x := by
      intro x hx
      rcases List.mem_map.mp hx with ⟨v, hv, rfl⟩
      exact (h v hv).1
    have hhi : ∀ x ∈ vitals.map (·.body_temperature), x ≤ (37.2 : ℚ) := by
      intro x hx
      rcases List.mem_map.mp hx with ⟨v, hv, rfl⟩
      exact (h v hv).2
    have hm1 := mean_le_of_le _ _ hmne hhi
    have hm2 := le_mean_of_le _ _ hmne hlo
    have c1 : (check_sustained_condition (vitals.map (·.body_temperature)) TEMP_EXTREME_HIGH "greater").1 = false :=
      check_greater_false _ _ (by norm_num [TEMP_EXTREME_HIGH]; linarith)
    have c2 : (check_sustained_condition (vitals.map (·.body_temperature)) TEMP_EXTREME_LOW "less").1 = false :=
      check_less_false _ _ (by norm_num [TEMP_EXTREME_LOW]; linarith)
    have c3 : (check_sustained_condition (vitals.map (·.body_temperature)) TEMP_NORMAL_MAX "greater").1 = false :=
      check_greater_false _ _ (by norm_num [TEMP_NORMAL_MAX]; linarith)
    have c4 : (check_sustained_condition (vitals.map (·.body_temperature)) TEMP_NORMAL_MIN "less").1 = false :=
      check_less_false _ _ (by norm_num [TEMP_NORMAL_MIN]; linarith)
    simp [analyze_temperature, hne, c1, c2, c3, c4]

/-- C1: the sustained-condition detector returns (false, 0.0) on the empty
sequence; otherwise it returns (b, f) with f the fraction of samples
strictly beyond the threshold in the given direction and b true exactly
when the mean is strictly beyond the threshold and f is at least 0.4;
including the two concrete examples from the spec. -/
theorem C1_sustained_condition :
    (∀ (t : ℚ) (c : String), check_sustained_condition [] t c = (false, 0)) ∧
    (∀ (values : List ℚ) (t : ℚ), values ≠ [] →
      check_sustained_condition values t "greater" =
        (decide (t < mean values) &&
           decide ((0.4 : ℚ) ≤ ((values.filter fun v => decide (t < v)).length : ℚ) / (values.length : ℚ)),
         ((values.filter fun v => decide (t < v)).length : ℚ) / (values.length : ℚ))) ∧
    (∀ (values : List ℚ) (t : ℚ), values ≠ [] →
      check_sustained_condition values t "less" =
        (decide (mean values < t) &&
           decide ((0.4 : ℚ) ≤ ((values.filter fun v => decide (v < t)).length : ℚ) / (values.length : ℚ)),
         ((values.filter fun v => decide (v < t)).length : ℚ) / (values.length : ℚ))) ∧
    check_sustained_condition [105, 110, 108, 112, 109, 111, 107, 110, 95, 98] 100 "greater" = (true, 8/10) ∧
    check_sustained_condition [105, 95, 98, 92, 97, 110, 93, 94, 96, 108] 100 "greater" = (false, 3/10) := by
  refine ⟨?_, ?_, ?_, ?_, ?_⟩
  · intro t c
    simp [check_sustained_condition]
  · intro values t hne
    simp [check_sustained_condition, hne, SUSTAINED_THRESHOLD_PCT]
  · intro values t hne
    simp [check_sustained_condition, hne, SUSTAINED_THRESHOLD_PCT]
  · norm_num [check_sustained_condition, mean, SUSTAINED_THRESHOLD_PCT]
    simp
  · norm_num [check_sustained_condition, mean, SUSTAINED_THRESHOLD_PCT]
    simp

/-- C1 witness: the general non-empty case instantiated at a concrete
sequence. -/
theorem C1_sustained_condition_witness :
    check_sustained_condition [105, 110, 108, 112, 109, 111, 107, 110, 95, 98] 100 "greater" =
      (decide ((100 : ℚ) < mean [105, 110, 108, 112, 109, 111, 107, 110, 95, 98]) &&
         decide ((0.4 : ℚ) ≤ ((([105, 110, 108, 112, 109, 111, 107, 110, 95, 98] : List ℚ).filter fun v => decide ((100 : ℚ) < v)).length : ℚ) / (([105, 110, 108, 112, 109, 111, 107, 110, 95, 98] : List ℚ).length : ℚ)),
       ((([105, 110, 108, 112, 109, 111, 107, 110, 95, 98] : List ℚ).filter fun v => decide ((100 : ℚ) < v)).length : ℚ) / (([105, 110, 108, 112, 109, 111, 107, 110, 95, 98] : List ℚ).length : ℚ)) :=
  C1_sustained_condition.2.1 [105, 110, 108, 112, 109, 111, 107, 110, 95, 98] 100 (by simp)

/-- C9: for every window (the empty one included) whose readings all lie
in the normal ranges (HR 60-100, SpO2 95-100, systolic 90-140, diastolic
60-90, RR 12-20, temperature 36.1-37.2), assess_risk returns risk level
low with an empty signals list; the empty window additionally yields an
empty statistics map. -/
theorem C9_normal_ranges_low :
    (∀ vitals : List VitalReading,
      (∀ v ∈ vitals,
        (60 ≤ v.heart_rate ∧ v.heart_rate ≤ 100) ∧
        (95 ≤ v.spo2 ∧ v.spo2 ≤ 100) ∧
        (90 ≤ v.systolic_bp ∧ v.systolic_bp ≤ 140) ∧
        (60 ≤ v.diastolic_bp ∧ v.diastolic_bp ≤ 90) ∧
        (12 ≤ v.respiratory_rate ∧ v.respiratory_rate ≤ 20) ∧
        (36.1 ≤ v.body_temperature ∧ v.body_temperature ≤ 37.2)) →
      (assess_risk vitals).risk_level = "low" ∧ (assess_risk vitals).signals = []) ∧
    assess_risk [] = ⟨"low", [], []⟩ := by
  constructor
  · intro vitals h
    by_cases hne : vitals = []
    · simp [assess_risk, hne]
    · have ha := analyze_heart_rate_eq_none vitals (fun v hv => (h v hv).1)
      have hb := analyze_spo2_eq_none vitals (fun v hv => (h v hv).2.1)
      have hc := analyze_blood_pressure_eq_none vitals
        (fun v hv => (h v hv).2.2.1) (fun v hv => (h v hv).2.2.2.1)
      have hd := analyze_respiratory_rate_eq_none vitals (fun v hv => (h v hv).2.2.2.2.1)
      have he := analyze_temperature_eq_none vitals (fun v hv => (h v hv).2.2.2.2.2)
      simp [assess_risk, hne, ha, hb, hc, hd, he, aggregate_risk_level]
  · rfl

/-- C9 witness: a single all-normal reading assesses as low risk with no
signals. -/
theorem C9_normal_ranges_low_witness :
    (assess_risk [⟨75, 16, 36.8, 98, 120, 80⟩]).risk_level = "low" ∧
    (assess_risk [⟨75, 16, 36.8, 98, 120, 80⟩]).signals = [] :=
  C9_normal_ranges_low.1 [⟨75, 16, 36.8, 98, 120, 80⟩] (by
    intro v hv
    simp only [List.mem_singleton] at hv
    subst hv
    norm_num)

/-- Unfolding step for the first-triggering-step semantics. -/
theorem first_step_cons (c : Bool) (f : Finding) (rest : List (Bool × Finding)) :
    (((c, f) :: rest).find? (·.1)).map (·.2) =
      if c then some f else (rest.find? (·.1)).map (·.2) := by
  cases c <;> simp [List.find?]

/-- C2 counterexample: on wC2 the systolic series triggers no extreme
step but does trigger the guarded mild-high step, the diastolic series
triggers the extreme-high step, and the channel emits the DIASTOLIC
extreme finding, not the systolic mild finding the claim predicts. -/
theorem C2_counterexample :
    (check_sustained_condition (wC2.map (·.systolic_bp)) SYSTOLIC_EXTREME_HIGH "greater").1 = false ∧
    (check_sustained_condition (wC2.map (·.systolic_bp)) SYSTOLIC_EXTREME_LOW "less").1 = false ∧
    (check_sustained_condition (wC2.map (·.systolic_bp)) SYSTOLIC_NORMAL_MAX "greater").1 = true ∧
    mean (wC2.map (·.systolic_bp)) < SYSTOLIC_EXTREME_HIGH ∧
    (check_sustained_condition (wC2.map (·.diastolic_bp)) DIASTOLIC_EXTREME_HIGH "greater").1 = true ∧
    analyze_blood_pressure wC2 =
      some ⟨"extreme", "blood_pressure", .bpDiaExtremeHigh 105 105 1⟩ := by
  refine ⟨?_, ?_, ?_, ?_, ?_, ?_⟩ <;>
    (norm_num [wC2, analyze_blood_pressure, check_sustained_condition, mean, listMax, listMin,
      SYSTOLIC_EXTREME_HIGH, SYSTOLIC_EXTREME_LOW, SYSTOLIC_NORMAL_MAX, SYSTOLIC_NORMAL_MIN,
      DIASTOLIC_EXTREME_HIGH, DIASTOLIC_EXTREME_LOW, DIASTOLIC_NORMAL_MAX, DIASTOLIC_NORMAL_MIN,
      SUSTAINED_THRESHOLD_PCT]; try simp)

/-- C2 amended: the blood-pressure channel emits at most one finding,
computed by the eight steps in the source order (all four extreme steps,
systolic before diastolic, then the four guarded mild steps, systolic
before diastolic), first triggering step winning; on wC2 this is the
diastolic extreme finding. -/
theorem C2_amended_order :
    (∀ w : List VitalReading, analyze_blood_pressure w = bp_first_match w) ∧
    analyze_blood_pressure wC2 =
      some ⟨"extreme", "blood_pressure", .bpDiaExtremeHigh 105 105 1⟩ := by
  constructor
  · intro w
    by_cases hne : w = []
    · simp [analyze_blood_pressure, bp_first_match, hne]
    · simp only [analyze_blood_pressure, bp_first_match, bp_steps, if_neg hne, first_step_cons,
        Option.map_none, List.find?_nil]
      rfl
  · norm_num [wC2, analyze_blood_pressure, check_sustained_condition, mean, listMax, listMin,
      SYSTOLIC_EXTREME_HIGH, SYSTOLIC_EXTREME_LOW, SYSTOLIC_NORMAL_MAX, SYSTOLIC_NORMAL_MIN,
      DIASTOLIC_EXTREME_HIGH, DIASTOLIC_EXTREME_LOW, DIASTOLIC_NORMAL_MAX, DIASTOLIC_NORMAL_MIN,
      SUSTAINED_THRESHOLD_PCT]
    simp

/-- C3 counterexample: on wC3 the SpO2 channel emits a MILD finding
although the mean SpO2 is NOT strictly greater than the extreme-low
bound of 92 (it equals it): the source guard is the non-strict
avg_spo2 >= SPO2_EXTREME_MIN. -/
theorem C3_counterexample :
    analyze_spo2 wC3 = some ⟨"mild", "spo2", .spo2MildLow 92 92 1⟩ ∧
    ¬ SPO2_EXTREME_MIN < mean (wC3.map (·.spo2)) := by
  constructor
  · norm_num [wC3, analyze_spo2, check_sustained_condition, mean, listMin,
      SPO2_EXTREME_MIN, SPO2_NORMAL_MIN, SUSTAINED_THRESHOLD_PCT]
    all_goals simp
    all_goals norm_num
  · norm_num [wC3, mean, SPO2_EXTREME_MIN]

/-- C3 amended: the heart-rate mild guards are strict (a mild HR finding
forces extreme-low bound < mean < extreme-high bound), while the SpO2
mild guard is non-strict: a mild SpO2 finding forces
extreme-low bound ≤ mean < normal bound, and equality is attainable
(wC3). -/
theorem C3_amended_guards :
    (∀ (w : List VitalReading) (f : Finding), analyze_heart_rate w = some f →
      f.severity = "mild" →
      HR_EXTREME_LOW < mean (w.map (·.heart_rate)) ∧
        mean (w.map (·.heart_rate)) < HR_EXTREME_HIGH) ∧
    (∀ (w : List VitalReading) (f : Finding), analyze_spo2 w = some f →
      f.severity = "mild" →
      SPO2_EXTREME_MIN ≤ mean (w.map (·.spo2)) ∧
        mean (w.map (·.spo2)) < SPO2_NORMAL_MIN) := by
  constructor
  · intro w f h hsev
    by_cases hne : w = []
    · simp [analyze_heart_rate, hne] at h
    · simp only [analyze_heart_rate, if_neg hne] at h
      split_ifs at h with h1 h2 h3 h4
      · have hf := Option.some.inj h
        subst hf
        simp at hsev
      · have hf := Option.some.inj h
        subst hf
        simp at hsev
      · rcases Bool.and_eq_true .. |>.mp h3 with ⟨hc, hg⟩
        have hm := mean_lt_of_check_greater _ _ hc
        have hg2 := of_decide_eq_true hg
        simp only [HR_NORMAL_MAX] at hm
        simp only [HR_EXTREME_LOW, HR_EXTREME_HIGH] at hg2 ⊢
        exact ⟨by linarith, hg2⟩
      · rcases Bool.and_eq_true .. |>.mp h4 with ⟨hc, hg⟩
        have hm := mean_lt_of_check_less _ _ hc
        have hg2 := of_decide_eq_true hg
        simp only [HR_NORMAL_MIN] at hm
        simp only [HR_EXTREME_LOW, HR_EXTREME_HIGH] at hg2 ⊢
        exact ⟨hg2, by linarith⟩
  · intro w f h hsev
    by_cases hne : w = []
    · simp [analyze_spo2, hne] at h
    · simp only [analyze_spo2, if_neg hne] at h
      split_ifs at h with h1 h2
      · have hf := Option.some.inj h
        subst hf
        simp at hsev
      · rcases Bool.and_eq_true .. |>.mp h2 with ⟨hc, hg⟩
        have hm := mean_lt_of_check_less _ _ hc
        exact ⟨of_decide_eq_true hg, hm⟩

/-- C3 witness: the amended heart-rate guard applied to a concrete mild
tachycardia window with mean 110. -/
theorem C3_amended_guards_witness :
    HR_EXTREME_LOW < mean (([⟨110, 16, 36.8, 98, 120, 80⟩] : List VitalReading).map (·.heart_rate)) ∧
      mean (([⟨110, 16, 36.8, 98, 120, 80⟩] : List VitalReading).map (·.heart_rate)) < HR_EXTREME_HIGH :=
  C3_amended_guards.1 [⟨110, 16, 36.8, 98, 120, 80⟩] ⟨"mild", "heart_rate", .hrMildHigh 110 1⟩
    (by
      norm_num [analyze_heart_rate, check_sustained_condition, mean, listMin, listMax,
        HR_EXTREME_HIGH, HR_EXTREME_LOW, HR_NORMAL_MAX, HR_NORMAL_MIN, SUSTAINED_THRESHOLD_PCT]
      all_goals simp)
    rfl

/-- C6: for every non-empty window the trend label is computed from the
leading and trailing segments of max(1, count // 4) readings each:
deteriorating iff HR change > 10 or SpO2 change < -2 or systolic change
> 10; otherwise improving iff HR change < -10 or SpO2 change > 2 or
systolic change < -10; otherwise stable. -/
theorem C6_trend_classification (vitals : List VitalReading) (hne : vitals ≠ []) :
    (trend_of vitals = "deteriorating" ↔
      (mean ((vitals.drop (vitals.length - max 1 (vitals.length / 4))).map (·.heart_rate)) -
          mean ((vitals.take (max 1 (vitals.length / 4))).map (·.heart_rate)) > 10 ∨
        mean ((vitals.drop (vitals.length - max 1 (vitals.length / 4))).map (·.spo2)) -
          mean ((vitals.take (max 1 (vitals.length / 4))).map (·.spo2)) < -2 ∨
        mean ((vitals.drop (vitals.length - max 1 (vitals.length / 4))).map (·.systolic_bp)) -
          mean ((vitals.take (max 1 (vitals.length / 4))).map (·.systolic_bp)) > 10)) ∧
    (trend_of vitals = "improving" ↔
      (¬ (mean ((vitals.drop (vitals.length - max 1 (vitals.length / 4))).map (·.heart_rate)) -
            mean ((vitals.take (max 1 (vitals.length / 4))).map (·.heart_rate)) > 10 ∨
          mean ((vitals.drop (vitals.length - max 1 (vitals.length / 4))).map (·.spo2)) -
            mean ((vitals.take (max 1 (vitals.length / 4))).map (·.spo2)) < -2 ∨
          mean ((vitals.drop (vitals.length - max 1 (vitals.length / 4))).map (·.systolic_bp)) -
            mean ((vitals.take (max 1 (vitals.length / 4))).map (·.systolic_bp)) > 10) ∧
        (mean ((vitals.drop (vitals.length - max 1 (vitals.length / 4))).map (·.heart_rate)) -
            mean ((vitals.take (max 1 (vitals.length / 4))).map (·.heart_rate)) < -10 ∨
          mean ((vitals.drop (vitals.length - max 1 (vitals.length / 4))).map (·.spo2)) -
            mean ((vitals.take (max 1 (vitals.length / 4))).map (·.spo2)) > 2 ∨
          mean ((vitals.drop (vitals.length - max 1 (vitals.length / 4))).map (·.systolic_bp)) -
            mean ((vitals.take (max 1 (vitals.length / 4))).map (·.systolic_bp)) < -10))) ∧
    (trend_of vitals = "stable" ↔
      (¬ (mean ((vitals.drop (vitals.length - max 1 (vitals.length / 4))).map (·.heart_rate)) -
            mean ((vitals.take (max 1 (vitals.length / 4))).map (·.heart_rate)) > 10 ∨
          mean ((vitals.drop (vitals.length - max 1 (vitals.length / 4))).map (·.spo2)) -
            mean ((vitals.take (max 1 (vitals.length / 4))).map (·.spo2)) < -2 ∨
          mean ((vitals.drop (vitals.length - max 1 (vitals.length / 4))).map (·.systolic_bp)) -
            mean ((vitals.take (max 1 (vitals.length / 4))).map (·.systolic_bp)) > 10) ∧
        ¬ (mean ((vitals.drop (vitals.length - max 1 (vitals.length / 4))).map (·.heart_rate)) -
            mean ((vitals.take (max 1 (vitals.length / 4))).map (·.heart_rate)) < -10 ∨
          mean ((vitals.drop (vitals.length - max 1 (vitals.length / 4))).map (·.spo2)) -
            mean ((vitals.take (max 1 (vitals.length / 4))).map (·.spo2)) > 2 ∨
          mean ((vitals.drop (vitals.length - max 1 (vitals.length / 4))).map (·.systolic_bp)) -
            mean ((vitals.take (max 1 (vitals.length / 4))).map (·.systolic_bp)) < -10))) := by
  simp only [trend_of]
  split_ifs with hd hi
  · exact ⟨iff_of_true rfl hd,
      iff_of_false (by decide) (fun h => h.1 hd),
      iff_of_false (by decide) (fun h => h.1 hd)⟩
  · exact ⟨iff_of_false (by decide) hd,
      iff_of_true rfl ⟨hd, hi⟩,
      iff_of_false (by decide) (fun h => h.2 hi)⟩
  · exact ⟨iff_of_false (by decide) hd,
      iff_of_false (by decide) (fun h => hi h.2),
      iff_of_true rfl ⟨hd, hi⟩⟩

/-- C6 witness: the classification applied to wC6. -/
theorem C6_trend_classification_witness :
    trend_of wC6 = "deteriorating" ↔
      (mean ((wC6.drop (wC6.length - max 1 (wC6.length / 4))).map (·.heart_rate)) -
          mean ((wC6.take (max 1 (wC6.length / 4))).map (·.heart_rate)) > 10 ∨
        mean ((wC6.drop (wC6.length - max 1 (wC6.length / 4))).map (·.spo2)) -
          mean ((wC6.take (max 1 (wC6.length / 4))).map (·.spo2)) < -2 ∨
        mean ((wC6.drop (wC6.length - max 1 (wC6.length / 4))).map (·.systolic_bp)) -
          mean ((wC6.take (max 1 (wC6.length / 4))).map (·.systolic_bp)) > 10) :=
  (C6_trend_classification wC6 (by simp [wC6])).1

example : containsSub "authentication failed" "401" = false := by decide

example : containsSub (lowerStr "Authentication Error") "authentication" = true := by decide

theorem attempt_loop_attempts_le (a : Nat → Except String ApiResponse) :
    ∀ (fuel idx : Nat) (waits : List ℚ),
      (attempt_loop a idx fuel waits).2.1 ≤ idx + fuel := by
  intro fuel
  induction fuel with
  | zero =>
    intro idx waits
    simp [attempt_loop]
  | succ n ih =>
    intro idx waits
    cases ha : a idx with
    | ok r =>
      simp [attempt_loop, ha]
    | error e =>
      by_cases hauth : is_auth_error e = true
      · simp [attempt_loop, ha, hauth]
      · by_cases hn : n = 0
        · simp [attempt_loop, ha, hauth, hn]
        · have h2 := ih (idx + 1) (waits ++ [RETRY_BACKOFF_FACTOR ^ idx])
          simp only [attempt_loop, ha, Bool.not_eq_true] at *
          simp [hauth, hn]
          omega

/-- C4: the retrying model invoker makes at most 3 transport attempts;
an attempt error containing 401 or (case-insensitively) authentication
is fatal immediately with no further attempt and no backoff wait; every
other failure before the third attempt is followed by a wait of
2.0^attemptIndex seconds (1s after attempt 1, 2s after attempt 2) and a
retry; if all 3 attempts fail a fatal API error wraps the last
underlying error; a missing (unset or empty) API key raises a distinct
error before any transport attempt. -/
theorem C4_retry_policy :
    (∀ a, call_claude_api none a = (.missingKey, 0, [])) ∧
    (∀ a, call_claude_api (some "") a = (.missingKey, 0, [])) ∧
    (∀ k a, (call_claude_api k a).2.1 ≤ RETRY_MAX_ATTEMPTS) ∧
    (∀ k a r, k ≠ none → k ≠ some "" → a 0 = .ok r →
      call_claude_api k a = (.success r, 1, [])) ∧
    (∀ k a e, k ≠ none → k ≠ some "" → a 0 = .error e → is_auth_error e = true →
      call_claude_api k a = (.authFailure e, 1, [])) ∧
    (∀ k a e r, k ≠ none → k ≠ some "" → a 0 = .error e → is_auth_error e = false →
      a 1 = .ok r → call_claude_api k a = (.success r, 2, [1])) ∧
    (∀ k a e0 e1, k ≠ none → k ≠ some "" → a 0 = .error e0 → is_auth_error e0 = false →
      a 1 = .error e1 → is_auth_error e1 = true →
      call_claude_api k a = (.authFailure e1, 2, [1])) ∧
    (∀ k a e0 e1 r, k ≠ none → k ≠ some "" → a 0 = .error e0 → is_auth_error e0 = false →
      a 1 = .error e1 → is_auth_error e1 = false → a 2 = .ok r →
      call_claude_api k a = (.success r, 3, [1, 2])) ∧
    (∀ k a e0 e1 e2, k ≠ none → k ≠ some "" → a 0 = .error e0 → is_auth_error e0 = false →
      a 1 = .error e1 → is_auth_error e1 = false → a 2 = .error e2 → is_auth_error e2 = true →
      call_claude_api k a = (.authFailure e2, 3, [1, 2])) ∧
    (∀ k a e0 e1 e2, k ≠ none → k ≠ some "" → a 0 = .error e0 → is_auth_error e0 = false →
      a 1 = .error e1 → is_auth_error e1 = false → a 2 = .error e2 → is_auth_error e2 = false →
      call_claude_api k a = (.apiFailure e2, 3, [1, 2])) := by
  refine ⟨?_, ?_, ?_, ?_, ?_, ?_, ?_, ?_, ?_, ?_⟩
  · intro a
    simp [call_claude_api]
  · intro a
    simp [call_claude_api]
  · intro k a
    by_cases hk : k = none ∨ k = some ""
    · simp [call_claude_api, hk, RETRY_MAX_ATTEMPTS]
    · have h := attempt_loop_attempts_le a RETRY_MAX_ATTEMPTS 0 []
      simpa [call_claude_api, hk] using h
  · intro k a r hk1 hk2 ha0
    have hcond : ¬ (k = none ∨ k = some "") := by
      rintro (h | h)
      · exact hk1 h
      · exact hk2 h
    norm_num [call_claude_api, hcond, RETRY_MAX_ATTEMPTS, attempt_loop, ha0]
  · intro k a e hk1 hk2 ha0 hauth
    have hcond : ¬ (k = none ∨ k = some "") := by
      rintro (h | h)
      · exact hk1 h
      · exact hk2 h
    norm_num [call_claude_api, hcond, RETRY_MAX_ATTEMPTS, attempt_loop, ha0, hauth]
  · intro k a e r hk1 hk2 ha0 hauth ha1
    have hcond : ¬ (k = none ∨ k = some "") := by
      rintro (h | h)
      · exact hk1 h
      · exact hk2 h
    norm_num [call_claude_api, hcond, RETRY_MAX_ATTEMPTS, attempt_loop, ha0, hauth, ha1,
      RETRY_BACKOFF_FACTOR]
  · intro k a e0 e1 hk1 hk2 ha0 hauth0 ha1 hauth1
    have hcond : ¬ (k = none ∨ k = some "") := by
      rintro (h | h)
      · exact hk1 h
      · exact hk2 h
    norm_num [call_claude_api, hcond, RETRY_MAX_ATTEMPTS, attempt_loop, ha0, hauth0, ha1, hauth1,
      RETRY_BACKOFF_FACTOR]
  · intro k a e0 e1 r hk1 hk2 ha0 hauth0 ha1 hauth1 ha2
    have hcond : ¬ (k = none ∨ k = some "") := by
      rintro (h | h)
      · exact hk1 h
      · exact hk2 h
    norm_num [call_claude_api, hcond, RETRY_MAX_ATTEMPTS, attempt_loop, ha0, hauth0, ha1, hauth1,
      ha2, RETRY_BACKOFF_FACTOR]
  · intro k a e0 e1 e2 hk1 hk2 ha0 hauth0 ha1 hauth1 ha2 hauth2
    have hcond : ¬ (k = none ∨ k = some "") := by
      rintro (h | h)
      · exact hk1 h
      · exact hk2 h
    norm_num [call_claude_api, hcond, RETRY_MAX_ATTEMPTS, attempt_loop, ha0, hauth0, ha1, hauth1,
      ha2, hauth2, RETRY_BACKOFF_FACTOR]
  · intro k a e0 e1 e2 hk1 hk2 ha0 hauth0 ha1 hauth1 ha2 hauth2
    have hcond : ¬ (k = none ∨ k = some "") := by
      rintro (h | h)
      · exact hk1 h
      · exact hk2 h
    norm_num [call_claude_api, hcond, RETRY_MAX_ATTEMPTS, attempt_loop, ha0, hauth0, ha1, hauth1,
      ha2, hauth2, RETRY_BACKOFF_FACTOR]

/-- C4 witness: a transport that always fails with a non-auth server
error exhausts 3 attempts, waits 1s then 2s, and surfaces the API error
wrapping the last underlying error. -/
theorem C4_retry_policy_witness :
    call_claude_api (some "test-key") (fun _ => Except.error "rate limited 429") =
      (.apiFailure "rate limited 429", 3, [1, 2]) :=
  C4_retry_policy.2.2.2.2.2.2.2.2.2 (some "test-key")
    (fun _ => Except.error "rate limited 429") "rate limited 429" "rate limited 429"
    "rate limited 429" (by simp) (by simp) rfl (by decide) rfl (by decide) rfl (by decide)

example : py_split "  two  words " = ["two", "words"] := by decide

set_option maxRecDepth 100000 in
/-- C5: validate_summary evaluates its checks in the fixed short-circuit
order (empty text; word count outside the inclusive range [50, 250];
case-insensitive absence of the patient identifier; any of the five
diagnostic phrases; any of the five treatment phrases; absence of every
time keyword; absence of every risk keyword), returning false with a
distinct reason at the first failing check and (true, none) otherwise;
a forbidden term outside the literal phrase list (the lone word
diagnosis) does not cause rejection. -/
theorem C5_validate_summary :
    (∀ p, validate_summary "" p = (false, some "summary is empty")) ∧
    (∀ t p, t ≠ "" → (py_split t).length < 50 →
      validate_summary t p = (false, some ("summary too short (" ++
        toString (py_split t).length ++ " words, minimum " ++ toString MIN_SUMMARY_WORDS ++ ")"))) ∧
    (∀ t p, t ≠ "" → 250 < (py_split t).length →
      validate_summary t p = (false, some ("summary too long (" ++
        toString (py_split t).length ++ " words, maximum " ++ toString MAX_SUMMARY_WORDS_BUFFER ++ ")"))) ∧
    (∀ t p, t ≠ "" → 50 ≤ (py_split t).length → (py_split t).length ≤ 250 →
      containsSub (upperStr t) (upperStr p) = false →
      validate_summary t p = (false, some ("summary does not reference patient " ++ p))) ∧
    (∀ t p pat, t ≠ "" → 50 ≤ (py_split t).length → (py_split t).length ≤ 250 →
      containsSub (upperStr t) (upperStr p) = true →
      strict_diagnosis_patterns.find? (fun q => containsSub (lowerStr t) q) = some pat →
      validate_summary t p =
        (false, some ("contains diagnostic language: " ++ quoteChar ++ pat ++ quoteChar))) ∧
    (∀ t p pat, t ≠ "" → 50 ≤ (py_split t).length → (py_split t).length ≤ 250 →
      containsSub (upperStr t) (upperStr p) = true →
      strict_diagnosis_patterns.find? (fun q => containsSub (lowerStr t) q) = none →
      strict_treatment_patterns.find? (fun q => containsSub (lowerStr t) q) = some pat →
      validate_summary t p =
        (false, some ("contains treatment recommendation: " ++ quoteChar ++ pat ++ quoteChar))) ∧
    (∀ t p, t ≠ "" → 50 ≤ (py_split t).length → (py_split t).length ≤ 250 →
      containsSub (upperStr t) (upperStr p) = true →
      strict_diagnosis_patterns.find? (fun q => containsSub (lowerStr t) q) = none →
      strict_treatment_patterns.find? (fun q => containsSub (lowerStr t) q) = none →
      time_keywords.any (fun k => containsSub (lowerStr t) k) = false →
      validate_summary t p = (false, some "summary does not mention time window")) ∧
    (∀ t p, t ≠ "" → 50 ≤ (py_split t).length → (py_split t).length ≤ 250 →
      containsSub (upperStr t) (upperStr p) = true →
      strict_diagnosis_patterns.find? (fun q => containsSub (lowerStr t) q) = none →
      strict_treatment_patterns.find? (fun q => containsSub (lowerStr t) q) = none →
      time_keywords.any (fun k => containsSub (lowerStr t) k) = true →
      risk_keywords.any (fun k => containsSub (lowerStr t) k) = false →
      validate_summary t p = (false, some "summary does not mention risk assessment")) ∧
    (∀ t p, t ≠ "" → 50 ≤ (py_split t).length → (py_split t).length ≤ 250 →
      containsSub (upperStr t) (upperStr p) = true →
      strict_diagnosis_patterns.find? (fun q => containsSub (lowerStr t) q) = none →
      strict_treatment_patterns.find? (fun q => containsSub (lowerStr t) q) = none →
      time_keywords.any (fun k => containsSub (lowerStr t) k) = true →
      risk_keywords.any (fun k => containsSub (lowerStr t) k) = true →
      validate_summary t p = (true, none)) ∧
    validate_summary wC5_text "PATIENT_001" = (true, none) := by
  refine ⟨?_, ?_, ?_, ?_, ?_, ?_, ?_, ?_, ?_, ?_⟩
  · intro p
    simp [validate_summary]
  · intro t p hne hwc
    simp [validate_summary, hne, MIN_SUMMARY_WORDS, hwc]
  · intro t p hne hwc
    have h1 : ¬ (py_split t).length < 50 := by omega
    simp [validate_summary, hne, MIN_SUMMARY_WORDS, MAX_SUMMARY_WORDS_BUFFER, h1, hwc]
  · intro t p hne hlo hhi hpid
    have h1 : ¬ (py_split t).length < 50 := by omega
    have h2 : ¬ (py_split t).length > 250 := by omega
    simp [validate_summary, hne, MIN_SUMMARY_WORDS, MAX_SUMMARY_WORDS_BUFFER, h1, h2, hpid]
  · intro t p pat hne hlo hhi hpid hdiag
    have h1 : ¬ (py_split t).length < 50 := by omega
    have h2 : ¬ (py_split t).length > 250 := by omega
    simp [validate_summary, hne, MIN_SUMMARY_WORDS, MAX_SUMMARY_WORDS_BUFFER, h1, h2, hpid, hdiag]
  · intro t p pat hne hlo hhi hpid hdiag htreat
    have h1 : ¬ (py_split t).length < 50 := by omega
    have h2 : ¬ (py_split t).length > 250 := by omega
    simp [validate_summary, hne, MIN_SUMMARY_WORDS, MAX_SUMMARY_WORDS_BUFFER, h1, h2, hpid,
      hdiag, htreat]
  · intro t p hne hlo hhi hpid hdiag htreat htime
    have h1 : ¬ (py_split t).length < 50 := by omega
    have h2 : ¬ (py_split t).length > 250 := by omega
    simp [validate_summary, hne, MIN_SUMMARY_WORDS, MAX_SUMMARY_WORDS_BUFFER, h1, h2, hpid,
      hdiag, htreat, htime]
  · intro t p hne hlo hhi hpid hdiag htreat htime hrisk
    have h1 : ¬ (py_split t).length < 50 := by omega
    have h2 : ¬ (py_split t).length > 250 := by omega
    simp [validate_summary, hne, MIN_SUMMARY_WORDS, MAX_SUMMARY_WORDS_BUFFER, h1, h2, hpid,
      hdiag, htreat, htime, hrisk]
  · intro t p hne hlo hhi hpid hdiag htreat htime hrisk
    have h1 : ¬ (py_split t).length < 50 := by omega
    have h2 : ¬ (py_split t).length > 250 := by omega
    simp [validate_summary, hne, MIN_SUMMARY_WORDS, MAX_SUMMARY_WORDS_BUFFER, h1, h2, hpid,
      hdiag, htreat, htime, hrisk]
  · decide

/-- C5 witness: the too-short branch applied to a two-word text. -/
theorem C5_validate_summary_witness :
    validate_summary "too short" "P" = (false, some ("summary too short (" ++
      toString (py_split "too short").length ++ " words, minimum " ++
      toString MIN_SUMMARY_WORDS ++ ")")) :=
  C5_validate_summary.2.1 "too short" "P" (by decide) (by decide)

theorem refresh_record_summary_text (r : CallRecord) (tc : TwilioCallInfo) (now : Nat) :
    (refresh_record r tc now).summary_text = r.summary_text := by
  unfold refresh_record
  cases tc.duration <;> dsimp <;> split <;> rfl

/-- C7: completed_at is null at creation, is set to the refresh time on
the first successful refresh observing a terminal provider status
(completed, busy, no-answer, failed, canceled), stays null on
non-terminal statuses, and is never cleared or overwritten once set;
the refreshed record is what the store keeps. -/
theorem C7_completed_at_lifecycle :
    (∀ (calls : CallStore) (s p cid pn ci : String) (pc : PlacedCall) (now : Nat),
      ∃ record : CallRecord,
        start_call calls s p cid pn ci (Except.ok pc) now =
          Except.ok (cid, fun k => if k = cid then some record else calls k) ∧
        record.completed_at = none) ∧
    (∀ (r : CallRecord) (tc : TwilioCallInfo) (now : Nat),
      r.completed_at = none → terminal_statuses.contains tc.status = true →
      (refresh_record r tc now).completed_at = some now) ∧
    (∀ (r : CallRecord) (tc : TwilioCallInfo) (now : Nat),
      r.completed_at = none → terminal_statuses.contains tc.status = false →
      (refresh_record r tc now).completed_at = none) ∧
    (∀ (r : CallRecord) (tc : TwilioCallInfo) (now t0 : Nat),
      r.completed_at = some t0 → (refresh_record r tc now).completed_at = some t0) ∧
    (∀ (calls : CallStore) (cid : String) (r : CallRecord) (tc : TwilioCallInfo) (now : Nat),
      calls cid = some r →
      (get_call_status calls cid (Except.ok tc) now).2 cid =
        some (refresh_record r tc now)) := by
  refine ⟨?_, ?_, ?_, ?_, ?_⟩
  · intro calls s p cid pn ci pc now
    exact ⟨_, rfl, rfl⟩
  · intro r tc now h1 h2
    have h2m : tc.status ∈ terminal_statuses := by simpa using h2
    cases htc : tc.duration <;> simp [refresh_record, htc, h1, h2m]
  · intro r tc now h1 h2
    have h2m : tc.status ∉ terminal_statuses := by simpa using h2
    cases htc : tc.duration <;> simp [refresh_record, htc, h1, h2m]
  · intro r tc now t0 h1
    cases htc : tc.duration <;> simp [refresh_record, htc, h1]
  · intro calls cid r tc now h
    simp [get_call_status, h]

/-- C7 witness: a queued record refreshed with provider status completed
gets completed_at set to the refresh time. -/
theorem C7_completed_at_lifecycle_witness :
    (refresh_record
      ⟨"call_a", "CA123", "PATIENT_001", "summary", "queued", "to", "from", 0, none, none⟩
      ⟨"completed", some 32⟩ 7).completed_at = some 7 :=
  C7_completed_at_lifecycle.2.1
    ⟨"call_a", "CA123", "PATIENT_001", "summary", "queued", "to", "from", 0, none, none⟩
    ⟨"completed", some 32⟩ 7 rfl (by decide)

/-- C8: when the provider status fetch fails, the status query returns
the stored record unchanged (status, completed_at and duration as
stored) with no error, and the store is exactly what it was before. -/
theorem C8_refresh_failure_stale (calls : CallStore) (cid e : String) (r : CallRecord)
    (now : Nat) (h : calls cid = some r) :
    get_call_status calls cid (Except.error e) now = (some (view_of r), calls) := by
  simp [get_call_status, h]

/-- C8 witness: a failed fetch on a tracked record returns the stored
view and the identical store. -/
theorem C8_refresh_failure_stale_witness :
    get_call_status wC8_store "call_a" (Except.error "transport down") 5 =
      (some (view_of
        ⟨"call_a", "CA123", "PATIENT_001", "summary", "queued", "to", "from", 0, none, none⟩),
       wC8_store) :=
  C8_refresh_failure_stale wC8_store "call_a" "transport down"
    ⟨"call_a", "CA123", "PATIENT_001", "summary", "queued", "to", "from", 0, none, none⟩
    5 (by simp [wC8_store])

/-- C10: creating a notification stores the summary text verbatim and
get_summary_for_call returns it for the returned identifier; a status
refresh never modifies any stored summary text; an identifier that was
never created yields none rather than an error. -/
theorem C10_summary_round_trip :
    (∀ (calls : CallStore) (s p cid pn ci : String) (pc : PlacedCall) (now : Nat),
      (start_call calls s p cid pn ci (Except.ok pc) now).map
        (fun x => get_summary_for_call x.2 x.1) = Except.ok (some s)) ∧
    (∀ (calls : CallStore) (cid qid : String) (fetch : Except String TwilioCallInfo) (now : Nat),
      get_summary_for_call ((get_call_status calls qid fetch now).2) cid =
        get_summary_for_call calls cid) ∧
    (∀ (calls : CallStore) (cid : String), calls cid = none →
      get_summary_for_call calls cid = none) := by
  refine ⟨?_, ?_, ?_⟩
  · intro calls s p cid pn ci pc now
    simp [start_call, get_summary_for_call, Except.map]
  · intro calls cid qid fetch now
    cases hq : calls qid with
    | none => simp [get_call_status, hq]
    | some r =>
      cases fetch with
      | error e => simp [get_call_status, hq]
      | ok tc =>
        simp only [get_call_status, hq]
        by_cases hc : cid = qid
        · subst hc
          simp [get_summary_for_call, hq, refresh_record_summary_text]
        · simp [get_summary_for_call, hc]
  · intro calls cid h
    simp [get_summary_for_call, h]

/-- C10 witness: an identifier that was never created yields none. -/
theorem C10_summary_round_trip_witness :
    get_summary_for_call (fun _ => none) "call_missing" = none :=
  C10_summary_round_trip.2.2 (fun _ => none) "call_missing" rfl
